import Mathlib

/-!
Verification of the header-template renderer of
`src/open-codegen/templates/icasadi_config.h` (OptimizationEngine).

The artifact in the repository is the template text itself: a C header with
three substitution slots written in a templating syntax (two plain slots and
one slot with a null-coalescing default).  The template text below is embedded
byte for byte.  The surrounding rendering function (input record, validation,
error type) is not part of the repository sources and is modelled from the
specification where so marked.
-/

set_option maxRecDepth 8000

namespace ICasadi

/-- Problem dimensions supplied to the renderer.  Counts are modelled as `Int`
so that invalid (negative) inputs are representable; the penalty-constraint
count is optional, matching the template slot with the fallback default. -/
structure ProblemDimensions where
  decision_variable_count : Int
  parameter_count : Int
  penalty_constraint_count : Option Int
  deriving DecidableEq, Repr

/-- The exact text of `src/open-codegen/templates/icasadi_config.h`
(752 bytes, LF line endings, no trailing newline), with the template's
brace characters written as hexadecimal escapes. -/
def templateText : String :=
  "/*\n * Auto-generated header file\n * This file is part of OptimizationEngine\n * (see https://alphaville.github.io/optimization-engine/)\n */\n#ifndef ICASADI_CONFIG_HEADER_SENTINEL\n#define ICASADI_CONFIG_HEADER_SENTINEL\n\n/* Global constant definitions */\n\n/* Number of decision variables */\n#define CASADI_NU \x7b\x7bnu\x7d\x7d\n\n/* Number of parameters */\n#define CASADI_NP \x7b\x7bnp\x7d\x7d\n\n/* Number of constraints to be treated using the penalty method */\n#define CASADI_NUM_CONSTAINTS_TYPE_PENALTY \x7b\x7bncp or 0\x7d\x7d\n\n/* Name of cost function */\n#define CASADI_COST_NAME phi\n\n/* Name of the gradient of the cost function */\n#define CASADI_GRAD_NAME grad_phi\n\n/* Name of c(x) -- constraints as penalties */\n#define CASADI_CONSTRAINTS_AS_PENALTY_NAME constraints_as_penalty\n\n#endif"

/-- The template, line by line, with the three substitution slots abstracted:
instantiating the slots with the template's own placeholder tokens recovers
`templateText` exactly (`joinLines_template_link`). -/
def renderLinesWith (nuv npv ncpv : String) : List String :=
  ["/*",
   " * Auto-generated header file",
   " * This file is part of OptimizationEngine",
   " * (see https://alphaville.github.io/optimization-engine/)",
   " */",
   "#ifndef ICASADI_CONFIG_HEADER_SENTINEL",
   "#define ICASADI_CONFIG_HEADER_SENTINEL",
   "",
   "/* Global constant definitions */",
   "",
   "/* Number of decision variables */",
   "#define CASADI_NU " ++ nuv,
   "",
   "/* Number of parameters */",
   "#define CASADI_NP " ++ npv,
   "",
   "/* Number of constraints to be treated using the penalty method */",
   "#define CASADI_NUM_CONSTAINTS_TYPE_PENALTY " ++ ncpv,
   "",
   "/* Name of cost function */",
   "#define CASADI_COST_NAME phi",
   "",
   "/* Name of the gradient of the cost function */",
   "#define CASADI_GRAD_NAME grad_phi",
   "",
   "/* Name of c(x) -- constraints as penalties */",
   "#define CASADI_CONSTRAINTS_AS_PENALTY_NAME constraints_as_penalty",
   "",
   "#endif"]

/-- Join lines with LF separators and no trailing newline, the line
discipline of the template file. -/
def joinLines : List String → String
  | [] => ""
  | [l] => l
  | l :: l2 :: ls => l ++ "\n" ++ joinLines (l2 :: ls)

/-- The templating engine's truthiness-based `or`: the template writes
`ncp or 0`, which yields the default both when the value is absent and when
it is the (falsy) number `0`. -/
def jinjaOr (v : Option Int) (dflt : Int) : Int :=
  match v with
  | none => dflt
  | some n => if n = 0 then dflt else n

/-- The rendered header text for given dimensions: the template's lines with
each slot replaced by the decimal rendering of its value, the penalty slot
going through the template's `or 0` fallback. -/
def render_text (d : ProblemDimensions) : String :=
  joinLines (renderLinesWith (toString d.decision_variable_count)
    (toString d.parameter_count)
    (toString (jinjaOr d.penalty_constraint_count 0)))

/-- Modelled from the spec: the renderer's error taxonomy is not part of the
template file under `src/`; the spec requires an `InvalidDimension` error when
a supplied count is negative or not an integer. -/
inductive RenderError where
  | InvalidDimension : RenderError
  deriving DecidableEq, Repr

/-- Modelled from the spec: validity of the input dimensions (all supplied
counts non-negative).  Non-integral inputs are excluded by the `Int` type of
the embedding. -/
def dimsValid (d : ProblemDimensions) : Bool :=
  decide (0 ≤ d.decision_variable_count) &&
  decide (0 ≤ d.parameter_count) &&
  (match d.penalty_constraint_count with
   | none => true
   | some n => decide (0 ≤ n))

/-- Modelled from the spec: `render` validates the dimensions and either
fails with `InvalidDimension` producing no text, or emits the complete
substituted header. -/
def render (d : ProblemDimensions) : Except RenderError String :=
  if dimsValid d then Except.ok (render_text d) else Except.error RenderError.InvalidDimension

/-- The sentinel identifier of the template's inclusion guard. -/
def guardSentinel : String := "ICASADI_CONFIG_HEADER_SENTINEL"

/-- The five lines of the template's leading comment block. -/
def headerCommentLines : List String :=
  ["/*",
   " * Auto-generated header file",
   " * This file is part of OptimizationEngine",
   " * (see https://alphaville.github.io/optimization-engine/)",
   " */"]

/-- Split a character list at every occurrence of `sep`, dropping the
separators; `acc` holds the characters of the current field, reversed. -/
def splitOnCharAux (sep : Char) : List Char → List Char → List (List Char)
  | [], acc => [acc.reverse]
  | c :: cs, acc =>
    if c = sep then acc.reverse :: splitOnCharAux sep cs []
    else splitOnCharAux sep cs (c :: acc)

/-- Split a string at every occurrence of `sep`. -/
def splitOnChar (sep : Char) (s : String) : List String :=
  (splitOnCharAux sep s.data []).map fun l => ⟨l⟩

/-- The lines of a text (separated by LF). -/
def splitLines (s : String) : List String := splitOnChar '\n' s

/-- Parse a `#define NAME VALUE` line into its name/value pair; lines of any
other shape — including a bare `#define NAME` guard line — yield `none`. -/
def parseDefine (line : String) : Option (String × String) :=
  match splitOnChar ' ' line with
  | [kw, n, v] => if kw = "#define" then some (n, v) else none
  | _ => none

/-- All value-carrying macro definitions of a header text, in textual order. -/
def macroDefs (s : String) : List (String × String) :=
  (splitLines s).filterMap parseDefine

/-- A string usable as a single line: it contains no LF. -/
abbrev lineOK (s : String) : Prop := ∀ c ∈ s.data, c ≠ '\n'

/-- A string usable as a substituted macro value: no LF and no space. -/
abbrev goodString (s : String) : Prop := ∀ c ∈ s.data, c ≠ '\n' ∧ c ≠ ' '

@[simp]
theorem mk_data (s : String) : (⟨s.data⟩ : String) = s := rfl

theorem splitOnCharAux_append (sep : Char) (xs : List Char) :
    ∀ (ys acc : List Char), (∀ c ∈ xs, c ≠ sep) →
      splitOnCharAux sep (xs ++ ys) acc = splitOnCharAux sep ys (xs.reverse ++ acc) := by
  induction xs with
  | nil => intro ys acc _; rfl
  | cons c cs ih =>
    intro ys acc h
    have hc : c ≠ sep := h c (List.mem_cons_self c cs)
    simp only [List.cons_append, splitOnCharAux, if_neg hc, List.append_eq]
    rw [ih ys (c :: acc) fun x hx => h x (List.mem_cons_of_mem c hx)]
    simp

theorem splitOnCharAux_sep (sep : Char) (ys acc : List Char) :
    splitOnCharAux sep (sep :: ys) acc = acc.reverse :: splitOnCharAux sep ys [] := by
  simp [splitOnCharAux]

theorem splitOnCharAux_no_sep (sep : Char) (xs acc : List Char)
    (h : ∀ c ∈ xs, c ≠ sep) :
    splitOnCharAux sep xs acc = [acc.reverse ++ xs] := by
  have hx := splitOnCharAux_append sep xs [] acc h
  simpa [splitOnCharAux] using hx

theorem splitLines_joinLines (ls : List String) (hne : ls ≠ [])
    (h : ∀ l ∈ ls, lineOK l) : splitLines (joinLines ls) = ls := by
  induction ls with
  | nil => exact absurd rfl hne
  | cons l ls ih =>
    cases ls with
    | nil =>
      simp only [joinLines, splitLines, splitOnChar]
      rw [splitOnCharAux_no_sep '\n' l.data [] (h l (List.mem_cons_self l []))]
      simp
    | cons l2 ls2 =>
      have hdata : (joinLines (l :: l2 :: ls2)).data
          = l.data ++ ('\n' :: (joinLines (l2 :: ls2)).data) := by
        show (l ++ "\n" ++ joinLines (l2 :: ls2)).data = _
        simp [List.append_assoc]
      simp only [splitLines, splitOnChar] at *
      rw [hdata, splitOnCharAux_append '\n' l.data _ [] fun c hc => h l (List.mem_cons_self l _) c hc,
        splitOnCharAux_sep]
      simp only [List.append_nil, List.reverse_reverse, List.map_cons, mk_data]
      rw [ih (by simp) fun x hx => h x (List.mem_cons_of_mem l hx)]

theorem digitChar_star (n : Nat) (h : 16 ≤ n) : Nat.digitChar n = '*' := by
  unfold Nat.digitChar
  repeat rw [if_neg (show ¬ _ = _ by omega)]

theorem digitChar_good (n : Nat) : Nat.digitChar n ≠ '\n' ∧ Nat.digitChar n ≠ ' ' := by
  rcases Nat.lt_or_ge n 16 with h | h
  · interval_cases n <;> exact ⟨by decide, by decide⟩
  · rw [digitChar_star n h]; exact ⟨by decide, by decide⟩

theorem toDigitsCore_good (b : Nat) :
    ∀ (f n : Nat) (ds : List Char), (∀ c ∈ ds, c ≠ '\n' ∧ c ≠ ' ') →
      ∀ c ∈ Nat.toDigitsCore b f n ds, c ≠ '\n' ∧ c ≠ ' ' := by
  intro f
  induction f with
  | zero => intro n ds h; simpa [Nat.toDigitsCore] using h
  | succ f ih =>
    intro n ds h c hc
    rw [Nat.toDigitsCore] at hc
    split at hc
    · rcases List.mem_cons.mp hc with rfl | hmem
      · exact digitChar_good _
      · exact h c hmem
    · refine ih (n / b) (Nat.digitChar (n % b) :: ds) ?_ c hc
      intro x hx
      rcases List.mem_cons.mp hx with rfl | hmem
      · exact digitChar_good _
      · exact h x hmem

theorem toString_nat_good (n : Nat) : goodString (toString n) := by
  intro c hc
  have hrepr : (toString n).data = Nat.toDigitsCore 10 (n + 1) n [] := rfl
  rw [hrepr] at hc
  exact toDigitsCore_good 10 (n + 1) n [] (by simp) c hc

theorem toString_int_good (i : Int) : goodString (toString i) := by
  cases i with
  | ofNat m =>
    intro c hc
    exact toString_nat_good m c hc
  | negSucc m =>
    intro c hc
    have hneg : toString (Int.negSucc m) = "-" ++ toString (Nat.succ m) := rfl
    rw [hneg, String.data_append] at hc
    have hdash : ("-" : String).data = ['-'] := rfl
    rw [hdash] at hc
    rcases List.mem_append.mp hc with hm | hm
    · rw [List.mem_singleton.mp hm]
      exact ⟨by decide, by decide⟩
    · exact toString_nat_good (Nat.succ m) c hm

theorem lineOK_append (a b : String) (ha : lineOK a) (hb : lineOK b) :
    lineOK (a ++ b) := by
  intro c hc
  rw [String.data_append] at hc
  rcases List.mem_append.mp hc with h | h
  · exact ha c h
  · exact hb c h

theorem renderLinesWith_lineOK (v1 v2 v3 : String)
    (h1 : goodString v1) (h2 : goodString v2) (h3 : goodString v3) :
    ∀ l ∈ renderLinesWith v1 v2 v3, lineOK l := by
  intro l hl
  simp only [renderLinesWith, List.mem_cons, List.not_mem_nil, or_false] at hl
  rcases hl with rfl | rfl | rfl | rfl | rfl | rfl | rfl | rfl | rfl | rfl | rfl | rfl | rfl |
    rfl | rfl | rfl | rfl | rfl | rfl | rfl | rfl | rfl | rfl | rfl | rfl | rfl | rfl | rfl | rfl
  all_goals try decide
  · exact lineOK_append _ _ (by decide) fun c hc => (h1 c hc).1
  · exact lineOK_append _ _ (by decide) fun c hc => (h2 c hc).1
  · exact lineOK_append _ _ (by decide) fun c hc => (h3 c hc).1

/-- Splitting a rendered header back into lines recovers the substituted
template lines, provided the substituted values are line-safe. -/
theorem splitLines_render (v1 v2 v3 : String)
    (h1 : goodString v1) (h2 : goodString v2) (h3 : goodString v3) :
    splitLines (joinLines (renderLinesWith v1 v2 v3)) = renderLinesWith v1 v2 v3 :=
  splitLines_joinLines _ (by simp [renderLinesWith])
    (renderLinesWith_lineOK v1 v2 v3 h1 h2 h3)

theorem splitOnCharAux_define (nmd vd : List Char)
    (hn : ∀ c ∈ nmd, c ≠ ' ') (hv : ∀ c ∈ vd, c ≠ ' ') :
    splitOnCharAux ' ' ("#define".data ++ (' ' :: (nmd ++ (' ' :: vd)))) []
      = ["#define".data, nmd, vd] := by
  rw [splitOnCharAux_append ' ' ("#define".data) (' ' :: (nmd ++ (' ' :: vd))) [] (by decide)]
  rw [splitOnCharAux_sep]
  rw [splitOnCharAux_append ' ' nmd (' ' :: vd) [] hn]
  rw [splitOnCharAux_sep]
  rw [splitOnCharAux_no_sep ' ' vd [] hv]
  simp

theorem parseDefine_nu (v : String) (hv : ∀ c ∈ v.data, c ≠ ' ') :
    parseDefine ("#define CASADI_NU " ++ v) = some ("CASADI_NU", v) := by
  have hdata : ("#define CASADI_NU " ++ v).data
      = "#define".data ++ (' ' :: ("CASADI_NU".data ++ (' ' :: v.data))) := rfl
  unfold parseDefine splitOnChar
  rw [hdata, splitOnCharAux_define ("CASADI_NU".data) v.data (by decide) hv]
  simp

theorem parseDefine_np (v : String) (hv : ∀ c ∈ v.data, c ≠ ' ') :
    parseDefine ("#define CASADI_NP " ++ v) = some ("CASADI_NP", v) := by
  have hdata : ("#define CASADI_NP " ++ v).data
      = "#define".data ++ (' ' :: ("CASADI_NP".data ++ (' ' :: v.data))) := rfl
  unfold parseDefine splitOnChar
  rw [hdata, splitOnCharAux_define ("CASADI_NP".data) v.data (by decide) hv]
  simp

theorem parseDefine_ncp (v : String) (hv : ∀ c ∈ v.data, c ≠ ' ') :
    parseDefine ("#define CASADI_NUM_CONSTAINTS_TYPE_PENALTY " ++ v)
      = some ("CASADI_NUM_CONSTAINTS_TYPE_PENALTY", v) := by
  have hdata : ("#define CASADI_NUM_CONSTAINTS_TYPE_PENALTY " ++ v).data
      = "#define".data ++ (' ' :: ("CASADI_NUM_CONSTAINTS_TYPE_PENALTY".data ++ (' ' :: v.data))) := rfl
  unfold parseDefine splitOnChar
  rw [hdata, splitOnCharAux_define ("CASADI_NUM_CONSTAINTS_TYPE_PENALTY".data) v.data (by decide) hv]
  simp

/-- The value-carrying macro definitions of any rendered header are exactly
the three numeric constants followed by the three fixed symbol names, in the
template's order. -/
theorem macroDefs_render (v1 v2 v3 : String)
    (h1 : goodString v1) (h2 : goodString v2) (h3 : goodString v3) :
    macroDefs (joinLines (renderLinesWith v1 v2 v3)) =
      [("CASADI_NU", v1), ("CASADI_NP", v2), ("CASADI_NUM_CONSTAINTS_TYPE_PENALTY", v3),
       ("CASADI_COST_NAME", "phi"), ("CASADI_GRAD_NAME", "grad_phi"),
       ("CASADI_CONSTRAINTS_AS_PENALTY_NAME", "constraints_as_penalty")] := by
  have p1 : parseDefine "/*" = none := by decide
  have p2 : parseDefine " * Auto-generated header file" = none := by decide
  have p3 : parseDefine " * This file is part of OptimizationEngine" = none := by decide
  have p4 : parseDefine " * (see https://alphaville.github.io/optimization-engine/)" = none := by
    decide
  have p5 : parseDefine " */" = none := by decide
  have p6 : parseDefine "#ifndef ICASADI_CONFIG_HEADER_SENTINEL" = none := by decide
  have p7 : parseDefine "#define ICASADI_CONFIG_HEADER_SENTINEL" = none := by decide
  have p8 : parseDefine "" = none := by decide
  have p9 : parseDefine "/* Global constant definitions */" = none := by decide
  have p10 : parseDefine "/* Number of decision variables */" = none := by decide
  have p11 : parseDefine "/* Number of parameters */" = none := by decide
  have p12 : parseDefine "/* Number of constraints to be treated using the penalty method */"
      = none := by decide
  have p13 : parseDefine "/* Name of cost function */" = none := by decide
  have p14 : parseDefine "#define CASADI_COST_NAME phi" = some ("CASADI_COST_NAME", "phi") := by
    decide
  have p15 : parseDefine "/* Name of the gradient of the cost function */" = none := by decide
  have p16 : parseDefine "#define CASADI_GRAD_NAME grad_phi"
      = some ("CASADI_GRAD_NAME", "grad_phi") := by decide
  have p17 : parseDefine "/* Name of c(x) -- constraints as penalties */" = none := by decide
  have p18 : parseDefine "#define CASADI_CONSTRAINTS_AS_PENALTY_NAME constraints_as_penalty"
      = some ("CASADI_CONSTRAINTS_AS_PENALTY_NAME", "constraints_as_penalty") := by decide
  have p19 : parseDefine "#endif" = none := by decide
  unfold macroDefs
  rw [splitLines_render v1 v2 v3 h1 h2 h3]
  unfold renderLinesWith
  simp only [List.filterMap_cons, List.filterMap_nil,
    parseDefine_nu v1 fun c hc => (h1 c hc).2,
    parseDefine_np v2 fun c hc => (h2 c hc).2,
    parseDefine_ncp v3 fun c hc => (h3 c hc).2,
    p1, p2, p3, p4, p5, p6, p7, p8, p9, p10, p11, p12, p13, p14, p15, p16, p17, p18, p19]

theorem render_ok_elim (d : ProblemDimensions) (hdr : String)
    (h : render d = Except.ok hdr) : dimsValid d = true ∧ hdr = render_text d := by
  unfold render at h
  split at h
  · next hv =>
    injection h with h
    exact ⟨hv, h.symm⟩
  · exact Except.noConfusion h

/-- Sanity link: joining the template's lines with the placeholder tokens in
the slots reproduces the repository file byte for byte. -/
theorem joinLines_template_link :
    joinLines (renderLinesWith "\x7b\x7bnu\x7d\x7d" "\x7b\x7bnp\x7d\x7d" "\x7b\x7bncp or 0\x7d\x7d") =
      templateText := by
  decide

/-- Claim C1: rendering the dimensions (decision variables 5, parameters 7,
penalty constraints 2) yields a header whose numeric constant macros
`CASADI_NU`, `CASADI_NP` and `CASADI_NUM_CONSTAINTS_TYPE_PENALTY` are
defined as `5`, `7` and `2` respectively. -/
theorem claim_C1 :
    ∃ hdr, render ⟨5, 7, some 2⟩ = Except.ok hdr ∧
      ("CASADI_NU", "5") ∈ macroDefs hdr ∧
      ("CASADI_NP", "7") ∈ macroDefs hdr ∧
      ("CASADI_NUM_CONSTAINTS_TYPE_PENALTY", "2") ∈ macroDefs hdr :=
  ⟨render_text ⟨5, 7, some 2⟩, rfl, by decide, by decide, by decide⟩

/-- Claim C2: whenever the penalty-constraint count is absent and rendering
succeeds, the header defines the penalty-constraint macro as the literal `0`:
the full line `#define CASADI_NUM_CONSTAINTS_TYPE_PENALTY 0` is present, so
the token at that position is neither missing nor malformed. -/
theorem claim_C2 : ∀ (d : ProblemDimensions) (hdr : String),
    d.penalty_constraint_count = none → render d = Except.ok hdr →
    ("CASADI_NUM_CONSTAINTS_TYPE_PENALTY", "0") ∈ macroDefs hdr ∧
    "#define CASADI_NUM_CONSTAINTS_TYPE_PENALTY 0" ∈ splitLines hdr := by
  intro d hdr hnone hok
  obtain ⟨_, rfl⟩ := render_ok_elim d hdr hok
  unfold render_text
  rw [hnone]
  have h0 : toString (jinjaOr none 0) = "0" := rfl
  rw [h0]
  constructor
  · rw [macroDefs_render _ _ _ (toString_int_good _) (toString_int_good _) (by decide)]
    simp
  · rw [splitLines_render _ _ _ (toString_int_good _) (toString_int_good _) (by decide)]
    have hline : "#define CASADI_NUM_CONSTAINTS_TYPE_PENALTY 0"
        = "#define CASADI_NUM_CONSTAINTS_TYPE_PENALTY " ++ "0" := rfl
    rw [hline]
    simp [renderLinesWith]

theorem claim_C2_witness :
    ("CASADI_NUM_CONSTAINTS_TYPE_PENALTY", "0") ∈ macroDefs (render_text ⟨3, 2, none⟩) ∧
    "#define CASADI_NUM_CONSTAINTS_TYPE_PENALTY 0" ∈ splitLines (render_text ⟨3, 2, none⟩) :=
  claim_C2 ⟨3, 2, none⟩ (render_text ⟨3, 2, none⟩) rfl rfl

/-- Claim C3: rendering is deterministic — the output is a pure function of
the input dimensions, so two renders of the same valid value are identical. -/
theorem claim_C3 : ∀ d : ProblemDimensions, dimsValid d = true → render d = render d :=
  fun _ _ => rfl

theorem claim_C3_witness :
    dimsValid ⟨1, 1, none⟩ = true ∧ render ⟨1, 1, none⟩ = render ⟨1, 1, none⟩ :=
  ⟨by decide, claim_C3 ⟨1, 1, none⟩ (by decide)⟩

/-- Claim C4: when any supplied count is negative, `render` fails with
`InvalidDimension`; the error constructor carries no header text, so no
partial or complete output is produced. -/
theorem claim_C4 : ∀ d : ProblemDimensions,
    (d.decision_variable_count < 0 ∨ d.parameter_count < 0 ∨
      (∃ n, d.penalty_constraint_count = some n ∧ n < 0)) →
    render d = Except.error RenderError.InvalidDimension := by
  rintro ⟨dv, pc, ncp⟩ (h | h | ⟨n, rfl, hn⟩)
  · have hb : dimsValid ⟨dv, pc, ncp⟩ = false := by
      unfold dimsValid
      dsimp only
      rw [decide_eq_false (not_le.mpr h)]
      simp
    unfold render
    rw [hb]
    rfl
  · have hb : dimsValid ⟨dv, pc, ncp⟩ = false := by
      unfold dimsValid
      dsimp only
      rw [decide_eq_false (not_le.mpr h)]
      simp
    unfold render
    rw [hb]
    rfl
  · have hb : dimsValid ⟨dv, pc, some n⟩ = false := by
      unfold dimsValid
      dsimp only
      rw [decide_eq_false (not_le.mpr hn)]
      simp
    unfold render
    rw [hb]
    rfl

theorem claim_C4_witness :
    render ⟨-1, 0, none⟩ = Except.error RenderError.InvalidDimension :=
  claim_C4 ⟨-1, 0, none⟩ (Or.inl (by decide))

/-- Claim C5: in every successfully rendered header the three symbol-name
macro lines are the same fixed literal text, independent of the dimension
values, and they are exactly the last three value-carrying macros. -/
theorem claim_C5 : ∀ (d : ProblemDimensions) (hdr : String), render d = Except.ok hdr →
    "#define CASADI_COST_NAME phi" ∈ splitLines hdr ∧
    "#define CASADI_GRAD_NAME grad_phi" ∈ splitLines hdr ∧
    "#define CASADI_CONSTRAINTS_AS_PENALTY_NAME constraints_as_penalty" ∈ splitLines hdr ∧
    List.drop 3 (macroDefs hdr) =
      [("CASADI_COST_NAME", "phi"), ("CASADI_GRAD_NAME", "grad_phi"),
       ("CASADI_CONSTRAINTS_AS_PENALTY_NAME", "constraints_as_penalty")] := by
  intro d hdr hok
  obtain ⟨_, rfl⟩ := render_ok_elim d hdr hok
  unfold render_text
  rw [splitLines_render _ _ _ (toString_int_good _) (toString_int_good _) (toString_int_good _),
    macroDefs_render _ _ _ (toString_int_good _) (toString_int_good _) (toString_int_good _)]
  refine ⟨?_, ?_, ?_, rfl⟩ <;> simp [renderLinesWith]

theorem claim_C5_witness :
    "#define CASADI_COST_NAME phi" ∈ splitLines (render_text ⟨1, 2, some 3⟩) ∧
    "#define CASADI_GRAD_NAME grad_phi" ∈ splitLines (render_text ⟨1, 2, some 3⟩) ∧
    "#define CASADI_CONSTRAINTS_AS_PENALTY_NAME constraints_as_penalty"
      ∈ splitLines (render_text ⟨1, 2, some 3⟩) ∧
    List.drop 3 (macroDefs (render_text ⟨1, 2, some 3⟩)) =
      [("CASADI_COST_NAME", "phi"), ("CASADI_GRAD_NAME", "grad_phi"),
       ("CASADI_CONSTRAINTS_AS_PENALTY_NAME", "constraints_as_penalty")] :=
  claim_C5 ⟨1, 2, some 3⟩ (render_text ⟨1, 2, some 3⟩) rfl

/-- Claim C6: every successfully rendered header carries exactly six
value-bearing macro definitions, in the template's fixed order: the three
numeric constants (decision variables, parameters, penalty constraints —
the last through the `or 0` fallback) followed by the three fixed
symbol-name macros.  The guard's value-less `#define` is not among them. -/
theorem claim_C6 : ∀ (d : ProblemDimensions) (hdr : String), render d = Except.ok hdr →
    macroDefs hdr =
      [("CASADI_NU", toString d.decision_variable_count),
       ("CASADI_NP", toString d.parameter_count),
       ("CASADI_NUM_CONSTAINTS_TYPE_PENALTY", toString (jinjaOr d.penalty_constraint_count 0)),
       ("CASADI_COST_NAME", "phi"), ("CASADI_GRAD_NAME", "grad_phi"),
       ("CASADI_CONSTRAINTS_AS_PENALTY_NAME", "constraints_as_penalty")] := by
  intro d hdr hok
  obtain ⟨_, rfl⟩ := render_ok_elim d hdr hok
  exact macroDefs_render _ _ _ (toString_int_good _) (toString_int_good _) (toString_int_good _)

theorem claim_C6_witness :
    macroDefs (render_text ⟨4, 6, some 2⟩) =
      [("CASADI_NU", "4"), ("CASADI_NP", "6"),
       ("CASADI_NUM_CONSTAINTS_TYPE_PENALTY", "2"),
       ("CASADI_COST_NAME", "phi"), ("CASADI_GRAD_NAME", "grad_phi"),
       ("CASADI_CONSTRAINTS_AS_PENALTY_NAME", "constraints_as_penalty")] :=
  claim_C6 ⟨4, 6, some 2⟩ (render_text ⟨4, 6, some 2⟩) rfl

/-- Claim C7: every successfully rendered header is wrapped in an inclusion
guard: after a preamble that contains no preprocessor directive, the open
pair `#ifndef`/`#define` names the one fixed sentinel, and the final line of
the header is the closing `#endif`, so all definitions lie inside the
guard. -/
theorem claim_C7 : ∀ (d : ProblemDimensions) (hdr : String), render d = Except.ok hdr →
    ∃ pre body, splitLines hdr
        = pre ++ ("#ifndef " ++ guardSentinel) :: ("#define " ++ guardSentinel)
            :: (body ++ ["#endif"]) ∧
      ∀ l ∈ pre, l.data.head? ≠ some '#' := by
  intro d hdr hok
  obtain ⟨_, rfl⟩ := render_ok_elim d hdr hok
  refine ⟨headerCommentLines,
    ["", "/* Global constant definitions */", "",
     "/* Number of decision variables */",
     "#define CASADI_NU " ++ toString d.decision_variable_count, "",
     "/* Number of parameters */",
     "#define CASADI_NP " ++ toString d.parameter_count, "",
     "/* Number of constraints to be treated using the penalty method */",
     "#define CASADI_NUM_CONSTAINTS_TYPE_PENALTY "
       ++ toString (jinjaOr d.penalty_constraint_count 0), "",
     "/* Name of cost function */", "#define CASADI_COST_NAME phi", "",
     "/* Name of the gradient of the cost function */",
     "#define CASADI_GRAD_NAME grad_phi", "",
     "/* Name of c(x) -- constraints as penalties */",
     "#define CASADI_CONSTRAINTS_AS_PENALTY_NAME constraints_as_penalty", ""], ?_, ?_⟩
  · unfold render_text
    rw [splitLines_render _ _ _ (toString_int_good _) (toString_int_good _) (toString_int_good _)]
    rfl
  · decide

theorem claim_C7_witness :
    ∃ pre body, splitLines (render_text ⟨2, 3, none⟩)
        = pre ++ ("#ifndef " ++ guardSentinel) :: ("#define " ++ guardSentinel)
            :: (body ++ ["#endif"]) ∧
      ∀ l ∈ pre, l.data.head? ≠ some '#' :=
  claim_C7 ⟨2, 3, none⟩ (render_text ⟨2, 3, none⟩) rfl

/-- Claim C8: every successfully rendered header begins with the fixed
five-line comment block, which marks the file as auto-generated, names the
owning toolchain (OptimizationEngine), contains no preprocessor directive,
and precedes the inclusion guard and therefore all definitions. -/
theorem claim_C8 : ∀ (d : ProblemDimensions) (hdr : String), render d = Except.ok hdr →
    ∃ rest, splitLines hdr = headerCommentLines ++ ("#ifndef " ++ guardSentinel) :: rest ∧
      " * Auto-generated header file" ∈ headerCommentLines ∧
      " * This file is part of OptimizationEngine" ∈ headerCommentLines ∧
      ∀ l ∈ headerCommentLines, ∀ c ∈ l.data, c ≠ '#' := by
  intro d hdr hok
  obtain ⟨_, rfl⟩ := render_ok_elim d hdr hok
  refine ⟨("#define " ++ guardSentinel) ::
    ["", "/* Global constant definitions */", "",
     "/* Number of decision variables */",
     "#define CASADI_NU " ++ toString d.decision_variable_count, "",
     "/* Number of parameters */",
     "#define CASADI_NP " ++ toString d.parameter_count, "",
     "/* Number of constraints to be treated using the penalty method */",
     "#define CASADI_NUM_CONSTAINTS_TYPE_PENALTY "
       ++ toString (jinjaOr d.penalty_constraint_count 0), "",
     "/* Name of cost function */", "#define CASADI_COST_NAME phi", "",
     "/* Name of the gradient of the cost function */",
     "#define CASADI_GRAD_NAME grad_phi", "",
     "/* Name of c(x) -- constraints as penalties */",
     "#define CASADI_CONSTRAINTS_AS_PENALTY_NAME constraints_as_penalty", "",
     "#endif"], ?_, by decide, by decide, by decide⟩
  unfold render_text
  rw [splitLines_render _ _ _ (toString_int_good _) (toString_int_good _) (toString_int_good _)]
  rfl

theorem claim_C8_witness :
    ∃ rest, splitLines (render_text ⟨7, 0, some 1⟩)
        = headerCommentLines ++ ("#ifndef " ++ guardSentinel) :: rest ∧
      " * Auto-generated header file" ∈ headerCommentLines ∧
      " * This file is part of OptimizationEngine" ∈ headerCommentLines ∧
      ∀ l ∈ headerCommentLines, ∀ c ∈ l.data, c ≠ '#' :=
  claim_C8 ⟨7, 0, some 1⟩ (render_text ⟨7, 0, some 1⟩) rfl

/-- Claim C9: the macro names fixed by the template are exactly `CASADI_NU`,
`CASADI_NP`, `CASADI_NUM_CONSTAINTS_TYPE_PENALTY` (with the misspelling
`CONSTAINTS`, which differs from the correctly spelled name), then
`CASADI_COST_NAME`, `CASADI_GRAD_NAME`, `CASADI_CONSTRAINTS_AS_PENALTY_NAME`
with values `phi`, `grad_phi`, `constraints_as_penalty`. -/
theorem claim_C9 : ∀ (d : ProblemDimensions) (hdr : String), render d = Except.ok hdr →
    (macroDefs hdr).map Prod.fst =
      ["CASADI_NU", "CASADI_NP", "CASADI_NUM_CONSTAINTS_TYPE_PENALTY",
       "CASADI_COST_NAME", "CASADI_GRAD_NAME", "CASADI_CONSTRAINTS_AS_PENALTY_NAME"] ∧
    List.drop 3 ((macroDefs hdr).map Prod.snd) = ["phi", "grad_phi", "constraints_as_penalty"] ∧
    ("CASADI_NUM_CONSTAINTS_TYPE_PENALTY" : String) ≠ "CASADI_NUM_CONSTRAINTS_TYPE_PENALTY" := by
  intro d hdr hok
  obtain ⟨_, rfl⟩ := render_ok_elim d hdr hok
  unfold render_text
  rw [macroDefs_render _ _ _ (toString_int_good _) (toString_int_good _) (toString_int_good _)]
  exact ⟨rfl, rfl, by decide⟩

theorem claim_C9_witness :
    (macroDefs (render_text ⟨9, 8, none⟩)).map Prod.fst =
      ["CASADI_NU", "CASADI_NP", "CASADI_NUM_CONSTAINTS_TYPE_PENALTY",
       "CASADI_COST_NAME", "CASADI_GRAD_NAME", "CASADI_CONSTRAINTS_AS_PENALTY_NAME"] ∧
    List.drop 3 ((macroDefs (render_text ⟨9, 8, none⟩)).map Prod.snd)
      = ["phi", "grad_phi", "constraints_as_penalty"] ∧
    ("CASADI_NUM_CONSTAINTS_TYPE_PENALTY" : String) ≠ "CASADI_NUM_CONSTRAINTS_TYPE_PENALTY" :=
  claim_C9 ⟨9, 8, none⟩ (render_text ⟨9, 8, none⟩) rfl

/-- Claim C10: an explicit penalty-constraint count of `0` renders
byte-identically to an absent one — the template's `or 0` fallback sends the
falsy value `0` and the absent value to the same literal `0`. -/
theorem claim_C10 : ∀ nu np : Int,
    render ⟨nu, np, some 0⟩ = render ⟨nu, np, none⟩ := by
  intro nu np
  simp [render, dimsValid, render_text, jinjaOr]

end ICasadi
